import Mathlib

/-!
Verification of the marina-management backend (le_port_de_plaisance).

The development shallowly embeds the authentication gate, the login flow,
the mongoose schema validation of catways and reservations and the
controllers' outcome-to-HTTP mapping, and proves the spec-level
properties about them.

Conventions of the embedding:
* JavaScript strings manipulated character-wise (the token pipeline) are
  `List Char`; strings only compared for equality stay `String`.
* A JavaScript value that may be `undefined`/`null` is an `Option`.
* Dates are integer millisecond timestamps (`Int`), as compared by the
  JavaScript `Date` relational operators.
* A rejected promise / thrown error caught by a controller's `catch` is a
  `JsError` carrying the fields the controllers inspect
  (`name`, `code`, `kind`, `errors` messages).
-/

namespace Marina

/-! ## JavaScript string primitives used by the middleware -/

/-- `s.toLowerCase()` on a JS string, character by character. -/
def jsToLower (s : List Char) : List Char := s.map Char.toLower

/-- `s.startsWith(p)` on JS strings. -/
def jsStartsWith (s p : List Char) : Bool := p.isPrefixOf s

/-- `s.slice(n, s.length)` on a JS string (empty when `n` exceeds the length). -/
def jsSlice (n : Nat) (s : List Char) : List Char := s.drop n

/-- `s.trim()` on a JS string (also mongoose's `trim: true` setter):
whitespace removed from both ends. -/
def jsTrim (s : String) : String :=
  ⟨((s.data.dropWhile Char.isWhitespace).reverse.dropWhile Char.isWhitespace).reverse⟩

/-! ## Auth Gate: `checkJWT` (middlewares/private.js, re-exported in
src/services/reservations.js lines 128-152)

`jwt.verify(token, SECRET_KEY, cb)` is abstracted as a function
`verify : List Char → Option Claim`: `none` covers every verification
error (bad signature, malformed token, elapsed expiry — the callback's
`err` branch), `some u` is the decoded payload's `user` field, which the
middleware attaches to the request (`req.user = decoded.user`). -/

/-- Terminal outcome of the `checkJWT` middleware for one request.
`next u` means the downstream handler is invoked (exactly once — the
middleware `return`s in every other branch and calls `next()` on a single
line) with `req.user = u`. -/
inductive GateOutcome (Claim : Type) where
  | next (user : Claim)
  | rejectJson (status : Nat) (body : String)
  | rejectRender (status : Nat) (view : String) (errors : List String)
deriving DecidableEq

/-- Error view message rendered when no token is provided
(source: `"Connectez vous pour accéder a cette page"`). -/
def gateLoginMsg : String := "Connectez vous pour accéder a cette page"

/-- `let token = req.cookies.authToken; if (token && token.toLowerCase().startsWith('bearer')) token = token.slice(7, token.length)`.
A missing cookie is `none`; the truthiness test on a string is
non-emptiness. -/
def stripBearerStep (cookie : Option (List Char)) : Option (List Char) :=
  match cookie with
  | none => none
  | some s =>
      if s ≠ [] ∧ jsStartsWith (jsToLower s) ("bearer".data) then
        some (jsSlice 7 s)
      else
        some s

/-- The `checkJWT` middleware (src/services/reservations.js lines 128-152):
strip the bearer marker, then `if (token)` verify it, rejecting with
`401` JSON `'token_not_valid'` on a verification error, calling
`next()` with the decoded user otherwise; with no (or empty) token,
render the error view with status 401. -/
def checkJWT {Claim : Type} (verify : List Char → Option Claim)
    (cookie : Option (List Char)) : GateOutcome Claim :=
  match stripBearerStep cookie with
  | some s =>
      if s ≠ [] then
        match verify s with
        | some decoded => .next decoded
        | none => .rejectJson 401 "token_not_valid"
      else
        .rejectRender 401 "error/error" [gateLoginMsg]
  | none => .rejectRender 401 "error/error" [gateLoginMsg]

/-- The token string actually submitted to `jwt.verify` for a given
cookie, if any: the cookie after bearer-stripping, when non-empty. -/
def effectiveToken (cookie : Option (List Char)) : Option (List Char) :=
  match stripBearerStep cookie with
  | some s => if s ≠ [] then some s else none
  | none => none

/-- Whether a gate outcome invoked the downstream handler. -/
def GateOutcome.isNext {Claim : Type} : GateOutcome Claim → Bool
  | .next _ => true
  | _ => false

/-- HTTP status of a gate rejection (`none` when the request proceeded). -/
def GateOutcome.status {Claim : Type} : GateOutcome Claim → Option Nat
  | .next _ => none
  | .rejectJson st _ => some st
  | .rejectRender st _ _ => some st

/-- A concrete verifier used to instantiate the gate theorems: accepts
exactly the token `"tok"`, decoding it to user `1`. -/
def demoVerify : List Char → Option Nat :=
  fun s => if s = "tok".data then some 1 else none

/-! ## Data model -/

/-- A stored user record as fetched by
`User.findOne({email}, '-__v -createdAt -updatedAt')`: Mongo `_id`
(abstracted to a `Nat`), `name`, `email` and the bcrypt `password` hash. -/
structure StoredUser where
  id : Nat
  name : String
  email : String
  password : String
deriving DecidableEq

/-- The identity claim embedded in a session token: the stored user
record after `delete user._doc.password`. -/
structure UserClaim where
  id : Nat
  name : String
  email : String
deriving DecidableEq

/-- `delete user._doc.password`: the stored record minus its password field. -/
def stripPassword (u : StoredUser) : UserClaim :=
  ⟨u.id, u.name, u.email⟩

/-- `jwt.sign({ user: user }, SECRET_KEY, { expiresIn })`: a
self-contained signed token embedding the claim and its time-to-live in
seconds (the signature itself is abstracted away; the gate's `verify` is
already abstract). -/
structure SignedToken where
  user : UserClaim
  expiresIn : Nat
deriving DecidableEq

/-- `res.cookie('authToken', token, { httpOnly: true, maxAge })` — the
`maxAge` option of an Express cookie is in milliseconds. -/
structure SetCookie where
  name : String
  value : SignedToken
  httpOnly : Bool
  maxAgeMs : Nat
deriving DecidableEq

/-- A mongoose catway document (models/catway.js).  `catwayNumber` is
declared `unique`, which mongoose does NOT enforce as a validator: it
becomes a MongoDB unique index, whose violation surfaces as error code
11000 at save time. `id` abstracts the Mongo `_id`. -/
structure Catway where
  id : Nat
  catwayNumber : Int
  type : String
  catwayState : String
  boatName : String
deriving DecidableEq

/-- A mongoose reservation document (models/reservation.js); the dates
are millisecond timestamps. -/
structure Reservation where
  id : Nat
  catwayNumber : Int
  clientName : String
  boatName : String
  checkIn : Int
  checkOut : Int
deriving DecidableEq

/-- The error object a controller's `catch` receives, restricted to the
fields the controllers inspect: `error.name` (`'ValidationError'`,
`'TypeError'`, ...), `error.code` (11000 for a Mongo duplicate key),
`error.kind` (`'ObjectId'` for a malformed identifier cast) and the
messages of `error.errors` for a validation error. -/
structure JsError where
  name : Option String
  code : Option Nat
  kind : Option String
  errors : List String
deriving DecidableEq

/-- Outcome of an awaited service call inside a controller's `try`
block: the resolved value, or the thrown/rejected error that the
`catch` receives. -/
inductive SvcResult (α : Type) where
  | ok (value : α)
  | error (e : JsError)
deriving DecidableEq

/-! ## Authentication flow: `usersController.authenticate` -/

/-- Outcome of `bcrypt.compare(password, user.password, cb)` as seen by
its callback `(err, response)`: `matched` is `(null, true)`, `mismatch`
is `(null, false)`, and `failure e` is an internal hashing error
`(err, undefined)`. -/
inductive CompareResult where
  | matched
  | mismatch
  | failure (err : String)
deriving DecidableEq

/-- Response of the `authenticate` handler.  `noResponse` records the
path where `throw new Error(err)` is executed inside the asynchronous
`bcrypt.compare` callback: by then the enclosing `try`/`catch` of the
`async` handler has already run to completion, so the exception is not
caught, propagates to the event loop, and no HTTP response is ever sent
for the request. -/
inductive AuthResp where
  | loginSuccess (cookie : SetCookie) (view : String)
  | renderHome (view : String) (message : String)
  | noResponse (err : String)
deriving DecidableEq

/-- Message rendered when `User.findOne` matches no user. -/
def unknownEmailMsg : String := "Identifiants erronés, veuillez réessayer."

/-- Message rendered when bcrypt reports a clean password mismatch. -/
def wrongPasswordMsg : String := "mot de passe erroné, veuillez réessayer."

/-- The `authenticate` handler (usersController lines 205-235).
`store` abstracts `User.findOne({email})` (case-sensitive exact match on
the stored email), `compare` abstracts `bcrypt.compare` applied to the
submitted password and the stored hash. -/
def authenticate (store : String → Option StoredUser)
    (compare : String → String → CompareResult)
    (email password : String) : AuthResp :=
  match store email with
  | some user =>
      match compare password user.password with
      | .matched =>
          let expireIn : Nat := 24 * 60 * 60
          let token : SignedToken := ⟨stripPassword user, expireIn⟩
          .loginSuccess ⟨"authToken", token, true, expireIn * 1000⟩ "dashboard/dashboard"
      | .failure e => .noResponse e
      | .mismatch => .renderHome "home/home" wrongPasswordMsg
  | none => .renderHome "home/home" unknownEmailMsg

/-- A concrete one-user credential store for instantiating the
authentication theorems. -/
def aliceUser : StoredUser := ⟨7, "Alice", "alice@mail.com", "hashA"⟩

/-- Store holding exactly `aliceUser`. -/
def demoStore : String → Option StoredUser :=
  fun e => if e = "alice@mail.com" then some aliceUser else none

/-- A comparer that always reports a clean mismatch. -/
def demoMismatch : String → String → CompareResult := fun _ _ => .mismatch

/-- A comparer that accepts exactly the pair `("pw", "hashA")`. -/
def demoCompare : String → String → CompareResult :=
  fun p h => if p = "pw" ∧ h = "hashA" then .matched else .mismatch

/-- A comparer that reports an internal bcrypt failure. -/
def demoCompareFail : String → String → CompareResult :=
  fun _ _ => .failure "bcrypt internal error"

/-! ## Schema validation

Mongoose semantics embedded here: `trim: true` is a setter applied
before validation; `required` fails on a missing value and, for string
paths, on an empty string; `minlength`/`maxlength`/`enum`/custom
validators run on the (trimmed) present value.  A `ValidationError`
collects the per-field messages.  Mongo `_id` generation is abstracted
as a fresh `Nat` chosen by the store. -/

/-- JS `/[a-zA-Z]/.test(v)`: at least one ASCII letter
(`Char.isAlpha` is exactly the ASCII letter test). -/
def hasLetter (s : String) : Bool := s.data.any Char.isAlpha

/-- Input to `new Reservation(data)` before validation; `none` is a
missing (`undefined`) field. -/
structure ReservationInput where
  catwayNumber : Option Int
  clientName : Option String
  boatName : Option String
  checkIn : Option Int
  checkOut : Option Int
deriving DecidableEq

/-- The validation messages produced by `reservationSchema`
(models/reservation.js lines 35-118) for one document at validation
time `now`:
* `catwayNumber`: required;
* `clientName`: required, trim, minlength 3, maxlength 100;
* `boatName`: required, trim;
* `checkIn`: required, and `v >= new Date()` — not in the past;
* `checkOut`: required, and `v > this.checkIn` — strictly after
  check-in (when `checkIn` is missing the JS comparison with
  `undefined` is false, so the validator fails). -/
def reservationValidationErrors (now : Int) (r : ReservationInput) : List String :=
  (match r.catwayNumber with
    | none => ["Le numéro de catway est requis"]
    | some _ => []) ++
  (match r.clientName with
    | none => ["Le nom du client est obligatoire"]
    | some s =>
        let t := jsTrim s
        if t = "" then ["Le nom du client est obligatoire"]
        else
          (if t.length < 3 then ["Le nom du client doit comporter au moins 3 caractères"] else []) ++
          (if 100 < t.length then ["Le nom du client ne peut pas dépasser 100 caractères"] else [])) ++
  (match r.boatName with
    | none => ["Le nom du bateau est obligatoire"]
    | some s => if jsTrim s = "" then ["Le nom du bateau est obligatoire"] else []) ++
  (match r.checkIn with
    | none => ["Date de check-in est obligatoire"]
    | some v =>
        if now ≤ v then []
        else ["La date de check-in ne peut pas être dans le passé."]) ++
  (match r.checkOut with
    | none => ["Date de check-out est obligatoire"]
    | some v =>
        match r.checkIn with
        | some ci =>
            if ci < v then []
            else ["La date de check-out doit être postérieure à la date de check-in."]
        | none => ["La date de check-out doit être postérieure à la date de check-in."])

/-- The `ValidationError` a failed mongoose validation rejects with. -/
def validationError (messages : List String) : JsError :=
  ⟨some "ValidationError", none, none, messages⟩

/-- `reservationService.creatReservation`: `new Reservation(data)`
followed by `save()`.  Validation runs first; on success the document is
inserted into the store with a fresh id.  Returns the service outcome
together with the updated store. -/
def creatReservation (now : Int) (db : List Reservation)
    (input : ReservationInput) : SvcResult Reservation × List Reservation :=
  let errs := reservationValidationErrors now input
  match input.catwayNumber, input.clientName, input.boatName,
        input.checkIn, input.checkOut with
  | some n, some cn, some bn, some ci, some co =>
      if errs ≠ [] then (.error (validationError errs), db)
      else
        let r : Reservation := ⟨db.length, n, jsTrim cn, jsTrim bn, ci, co⟩
        (.ok r, db ++ [r])
  | _, _, _, _, _ => (.error (validationError errs), db)

/-- Input to `new Catway(data)` before validation. -/
structure CatwayInput where
  catwayNumber : Option Int
  type : Option String
  catwayState : Option String
  boatName : Option String
deriving DecidableEq

/-- The validation messages produced by `catwaySchema`
(models/catway.js lines 236-302):
* `catwayNumber`: required (its `unique` flag is not a validator — it
  is enforced by the Mongo unique index at save time);
* `type`: required, trim, enum `['long', 'short']`;
* `catwayState`: required, trim, minlength 3, maxlength 100;
* `boatName`: required, trim, minlength 2, maxlength 50, and must
  contain at least one ASCII letter.
Messages without a custom text in the schema are rendered as the
mongoose default, abbreviated here to a stable tag; no claim inspects
them. -/
def catwayValidationErrors (c : CatwayInput) : List String :=
  (match c.catwayNumber with
    | none => ["Path catwayNumber is required."]
    | some _ => []) ++
  (match c.type with
    | none => ["Path type is required."]
    | some s =>
        let t := jsTrim s
        if t = "" then ["Path type is required."]
        else if t = "long" ∨ t = "short" then []
        else [t ++ " is not a valid enum value for path type."]) ++
  (match c.catwayState with
    | none => ["Path catwayState is required."]
    | some s =>
        let t := jsTrim s
        if t = "" then ["Path catwayState is required."]
        else
          (if t.length < 3 then ["L\x27état du catway doit comporter au moins 3 caractères"] else []) ++
          (if 100 < t.length then ["L\x27état du Catway ne peut pas dépasser 100 caractères"] else [])) ++
  (match c.boatName with
    | none => ["Path boatName is required."]
    | some s =>
        let t := jsTrim s
        if t = "" then ["Path boatName is required."]
        else
          (if t.length < 2 then ["Le nom du bateau doit comporter au moins 2 caractères"] else []) ++
          (if 50 < t.length then ["Le nom du bateau ne peut pas dépasser 50 caractères"] else []) ++
          (if hasLetter t then []
           else [t ++ " n\x27est pas valide ! Le nom du bateau doit contenir au moins une lettre."]))

/-- The duplicate-key error MongoDB rejects with when the `catwayNumber`
unique index is violated (`error.code === 11000`). -/
def dupKeyError : JsError := ⟨some "MongoServerError", some 11000, none, []⟩

/-- `catwayService.addCatway`: `new Catway(data)` followed by `save()`.
Mongoose validation runs first; then the insert hits the unique index on
`catwayNumber`, rejecting with code 11000 when the number already exists
in the store. -/
def addCatway (db : List Catway) (input : CatwayInput) :
    SvcResult Catway × List Catway :=
  let errs := catwayValidationErrors input
  match input.catwayNumber, input.type, input.catwayState, input.boatName with
  | some n, some ty, some st, some bn =>
      if errs ≠ [] then (.error (validationError errs), db)
      else if db.any (fun c => c.catwayNumber = n) then
        (.error dupKeyError, db)
      else
        let c : Catway := ⟨db.length, n, jsTrim ty, jsTrim st, jsTrim bn⟩
        (.ok c, db ++ [c])
  | _, _, _, _ => (.error (validationError errs), db)

/-! ## Delete services

`Model.findByIdAndDelete({_id: id})` deletes the single document whose
`_id` matches and resolves to it, or resolves to `null` when none
matches.  A malformed identifier (a `CastError` of kind `ObjectId`)
cannot arise here because ids are already `Nat`; the controllers'
handling of that error is modelled at the controller layer. -/

/-- `catwayService.deleteCatway`. -/
def deleteCatway (db : List Catway) (id : Nat) :
    Option Catway × List Catway :=
  match db.find? (fun c => c.id == id) with
  | some c => (some c, db.eraseP (fun c => c.id == id))
  | none => (none, db)

/-- `reservationService.deleteReservation`. -/
def deleteReservation (db : List Reservation) (id : Nat) :
    Option Reservation × List Reservation :=
  match db.find? (fun r => r.id == id) with
  | some r => (some r, db.eraseP (fun r => r.id == id))
  | none => (none, db)

/-- `userService.deleteUser`. -/
def deleteUser (db : List StoredUser) (id : Nat) :
    Option StoredUser × List StoredUser :=
  match db.find? (fun u => u.id == id) with
  | some u => (some u, db.eraseP (fun u => u.id == id))
  | none => (none, db)

/-! ## Controller responses

Each controller handler is a function of the outcome(s) of the service
calls awaited inside its `try` block (an `SvcResult`, exactly how the
repository's own tests drive the handlers by stubbing the services) plus
the request data it reads, returning the terminal Express response.
`res.render` without an explicit status responds 200; `res.redirect`
responds 302 (Express sets 302 even after `res.status(200)`). -/

/-- A terminal Express response.  Constructors record which response
method was used and with what payload. -/
inductive Resp where
  | render (status : Nat) (view : String) (message : Option String)
  | renderErrors (status : Nat) (errors : List String)
  | renderUser (status : Nat) (view : String) (u : StoredUser) (message : Option String)
  | renderUsers (status : Nat) (view : String) (users : List StoredUser)
  | renderCatway (status : Nat) (view : String) (c : Catway) (message : Option String)
  | renderCatways (status : Nat) (view : String) (catways : List Catway) (message : Option String)
  | renderReservation (status : Nat) (view : String) (r : Reservation)
  | renderReservations (status : Nat) (view : String) (rs : List Reservation)
  | jsonMsg (status : Nat) (message : String)
  | jsonMsgErr (status : Nat) (message : String) (e : JsError)
  | jsonErrObj (status : Nat) (e : JsError)
  | jsonErrKind (status : Nat) (kind : String)
  | jsonStr (status : Nat) (s : String)
  | jsonUser (status : Nat) (u : StoredUser)
  | jsonReservations (status : Nat) (rs : List Reservation)
  | redirect (status : Nat) (location : String)
deriving DecidableEq

/-- HTTP status of a response. -/
def Resp.status : Resp → Nat
  | .render st _ _ => st
  | .renderErrors st _ => st
  | .renderUser st _ _ _ => st
  | .renderUsers st _ _ => st
  | .renderCatway st _ _ _ => st
  | .renderCatways st _ _ _ => st
  | .renderReservation st _ _ => st
  | .renderReservations st _ _ => st
  | .jsonMsg st _ => st
  | .jsonMsgErr st _ _ => st
  | .jsonErrObj st _ => st
  | .jsonErrKind st _ => st
  | .jsonStr st _ => st
  | .jsonUser st _ => st
  | .jsonReservations st _ => st
  | .redirect st _ => st

/-- The `TypeError` raised by reading a property of `null`/`undefined`
(e.g. `catway.boatName` after the service resolved `null`, or
`req.headers.referer.includes` with no referer header).  Its `kind`
field is `undefined`, so the controllers' `error.kind === "ObjectId"`
tests fail and it falls to the generic branch. -/
def typeError : JsError := ⟨some "TypeError", none, none, []⟩

/-- JS string concatenation `x + s` where `x` may be `undefined`
(`undefined` coerces to the string "undefined"), as in
`message + "<br>Aucun catway trouvée"` of `catwaysController.getAll`. -/
def jsPlusStr (q : Option String) (s : String) : String :=
  (match q with | some m => m | none => "undefined") ++ s

/-- JS `s.includes(sub)`: `sub` occurs contiguously somewhere in `s`. -/
def jsIncludes (s sub : String) : Bool :=
  (List.range (s.data.length + 1)).any (fun i => sub.data.isPrefixOf (s.data.drop i))

namespace usersController

/-- `usersController.getById` (part_003 lines 23-36). -/
def getById (svc : SvcResult (Option StoredUser)) : Resp :=
  match svc with
  | .ok (some user) => .jsonUser 200 user
  | .ok none => .jsonMsg 404 "Utilisateur non trouvé"
  | .error e => .jsonMsgErr 500 "Internal Server Error" e

/-- `usersController.add` (part_003 lines 50-70).  The success message
reproduces the source's missing space after `${user.name}`. -/
def add (svc : SvcResult StoredUser) : Resp :=
  match svc with
  | .ok user =>
      .render 200 "dashboard/dashboard"
        (some ("L\x27utilisateur " ++ user.name ++ "a été créé avec succès"))
  | .error e =>
      if e.name = some "ValidationError" then .renderErrors 400 e.errors
      else if e.code = some 11000 then
        .renderErrors 400 ["Cet email existe déjà dans notre base de données"]
      else .jsonMsgErr 500 "Internal Server Error" e

/-- `usersController.update` (part_003 lines 100-131).  The find /
field-overwrite / `save()` sequence of the `try` block is abstracted
into its outcome: the updated user, `none` when the id matched no user,
or the error (from the lookup or from `save()`'s re-validation) that the
`catch` receives. -/
def update (tryOutcome : SvcResult (Option StoredUser)) : Resp :=
  match tryOutcome with
  | .ok (some user) =>
      .renderUser 200 "users/edit_user" user
        (some "L\x27utilisateur a été mis à jour avec succès")
  | .ok none => .jsonStr 404 "Utilisateur non trouvé"
  | .error e =>
      if e.name = some "ValidationError" then .renderErrors 400 e.errors
      else .jsonErrObj 501 e

/-- `usersController.edit` (part_003 lines 145-162). -/
def edit (svc : SvcResult (Option StoredUser)) : Resp :=
  match svc with
  | .ok none => .renderErrors 404 ["Utilisateur non trouvé"]
  | .ok (some user) => .renderUser 200 "users/edit_user" user none
  | .error e =>
      if e.kind = some "ObjectId" then .renderErrors 404 ["Entrez un identifiant valide"]
      else .jsonErrObj 501 e

/-- `usersController.delete` (part_003 lines 176-191).  When the service
resolves `null`, the template literal reads `user.name` on `null`,
raising a `TypeError` that the `catch` receives: its `kind` is not
`"ObjectId"`, so the handler answers 501 with the raw error — never
404. -/
def del (svc : SvcResult (Option StoredUser)) : Resp :=
  match svc with
  | .ok (some user) =>
      .render 200 "dashboard/dashboard"
        (some ("L\x27utilisateur " ++ user.name ++ " a été supprimé avec succès"))
  | .ok none => .jsonErrObj 501 typeError
  | .error e =>
      if e.kind = some "ObjectId" then .jsonErrKind 400 "ObjectId"
      else .jsonErrObj 501 e

/-- `usersController.getUsersList` (part_003 lines 250-262). -/
def getUsersList (svc : SvcResult (List StoredUser)) : Resp :=
  match svc with
  | .ok users =>
      if users = [] then .render 404 "dashboard/dashboard" (some "Aucun utilisateur trouvé")
      else .renderUsers 200 "users/list_users" users
  | .error e => .jsonErrObj 501 e

end usersController

namespace catwaysController

/-- `catwaysController.getAll` (catwaysController.js lines 19-32). -/
def getAll (svc : SvcResult (List Catway)) (queryMessage : Option String) : Resp :=
  match svc with
  | .ok catways =>
      if catways = [] then
        .renderCatways 404 "catways/list" []
          (some (jsPlusStr queryMessage "<br>Aucun catway trouvée"))
      else .renderCatways 200 "catways/list" catways queryMessage
  | .error e => .jsonMsgErr 500 "Internal Server Error" e

/-- `catwaysController.getById` (catwaysController.js lines 46-64). -/
def getById (svc : SvcResult (Option Catway)) : Resp :=
  match svc with
  | .ok none => .renderErrors 404 ["Catway non trouvé"]
  | .ok (some catway) => .renderCatway 200 "catways/details" catway none
  | .error e =>
      if e.kind = some "ObjectId" then .renderErrors 404 ["Entrez un identifiant valide"]
      else .jsonMsgErr 500 "Internal Server Error" e

/-- `catwaysController.add` (catwaysController.js lines 78-103). -/
def add (svc : SvcResult Catway) : Resp :=
  match svc with
  | .ok newCatway =>
      .redirect 302 ("/catways?message=Catway " ++ newCatway.boatName ++ " a été créé avec succès")
  | .error e =>
      if e.name = some "ValidationError" then .renderErrors 400 e.errors
      else if e.code = some 11000 then
        .renderErrors 400 ["Ce numéro de catway existe déjà"]
      else .jsonMsgErr 500 "Internal Server Error" e

/-- `catwaysController.update` (catwaysController.js lines 137-156). -/
def update (svc : SvcResult (Option Catway)) : Resp :=
  match svc with
  | .ok none => .jsonStr 404 "Catway non trouvé"
  | .ok (some catway) =>
      .renderCatway 200 "catways/edit" catway (some "Catway mis à jour avec succès")
  | .error e =>
      if e.name = some "ValidationError" then .renderErrors 400 e.errors
      else .jsonMsgErr 500 "Internal Server Error" e

/-- `catwaysController.edit` (catwaysController.js lines 170-187). -/
def edit (svc : SvcResult (Option Catway)) : Resp :=
  match svc with
  | .ok none => .renderErrors 404 ["Catway non trouvé"]
  | .ok (some catway) => .renderCatway 200 "catways/edit" catway none
  | .error e =>
      if e.kind = some "ObjectId" then .renderErrors 400 ["Entrez un identifiant valide"]
      else .jsonMsgErr 500 "Internal Server Error" e

/-- `catwaysController.delete` (catwaysController.js lines 201-226).
With `.ok none` the template literal reads `catway.boatName` on `null`
(`TypeError`, caught, `kind` not `"ObjectId"`, so 500); with a deleted
catway but no referer header, `req.headers.referer.includes` raises the
same way. -/
def del (svc : SvcResult (Option Catway)) (referer : Option String) : Resp :=
  match svc with
  | .ok (some catway) =>
      let msg := "Catway " ++ catway.boatName ++ " a été supprimé avec succès"
      match referer with
      | none => .jsonMsgErr 500 "Internal Server Error" typeError
      | some r =>
          if jsIncludes r "dashboard" then .jsonMsg 200 msg
          else .redirect 302 ("/catways?message=" ++ msg)
  | .ok none => .jsonMsgErr 500 "Internal Server Error" typeError
  | .error e =>
      if e.kind = some "ObjectId" then .jsonErrKind 400 "ObjectId"
      else .jsonMsgErr 500 "Internal Server Error" e

end catwaysController

namespace reservationsController

/-- `reservationsController.getAllOfCatway` (part_003 lines 281-300):
first the catway lookup, then the reservations of its number. -/
def getAllOfCatway (catwaySvc : SvcResult (Option Catway))
    (resSvc : SvcResult (List Reservation)) : Resp :=
  match catwaySvc with
  | .error e => .jsonMsgErr 500 "Internal Server Error" e
  | .ok none => .jsonMsg 404 "Catway non trouvé"
  | .ok (some _) =>
      match resSvc with
      | .error e => .jsonMsgErr 500 "Internal Server Error" e
      | .ok rs =>
          if rs = [] then .jsonMsg 404 "Aucune réservation trouvée"
          else .jsonReservations 200 rs

/-- `reservationsController.getAll` (part_003 lines 314-321). -/
def getAll (svc : SvcResult (List Reservation)) : Resp :=
  match svc with
  | .ok rs => .renderReservations 200 "reservations/list" rs
  | .error e => .jsonMsgErr 500 "Internal Server Error" e

/-- `reservationsController.getbyId` (part_003 lines 335-351). -/
def getbyId (svc : SvcResult (Option Reservation)) : Resp :=
  match svc with
  | .ok none => .renderErrors 404 ["Réservation non trouvée"]
  | .ok (some r) => .renderReservation 200 "reservations/details" r
  | .error e =>
      if e.kind = some "ObjectId" then .renderErrors 404 ["Entrez un identifiant valide"]
      else .jsonMsgErr 500 "Internal Server Error" e

/-- `reservationsController.add` (part_003 lines 365-392): the catway
lookup, then `creatReservation` on data copying `catwayNumber` and
`boatName` from the catway. -/
def add (catwaySvc : SvcResult (Option Catway))
    (createSvc : SvcResult Reservation) : Resp :=
  match catwaySvc with
  | .error e => .jsonMsgErr 500 "Internal Server Error" e
  | .ok none => .jsonMsg 404 "Catway non trouvé"
  | .ok (some _) =>
      match createSvc with
      | .ok r =>
          .render 200 "dashboard/dashboard"
            (some ("La réservation du bateau " ++ r.boatName ++ " a été créée avec succès"))
      | .error e =>
          if e.name = some "ValidationError" then .renderErrors 400 e.errors
          else .jsonMsgErr 500 "Internal Server Error" e

/-- `reservationsController.renderAddForm` (part_003 lines 406-417). -/
def renderAddForm (svc : SvcResult (List Catway)) : Resp :=
  match svc with
  | .ok catways =>
      if catways = [] then
        .renderCatways 404 "catways/list" [] (some "Aucun catway trouvé")
      else .renderCatways 200 "reservations/add" catways none
  | .error e => .jsonMsgErr 500 "Internal Server Error" e

/-- `reservationsController.delete` (part_003 lines 431-449): like the
catway delete, `reservation.boatName` on `null` and
`req.headers.referer.includes` with no referer both raise a `TypeError`
whose `kind` is not `"ObjectId"`, landing in the 500 branch.  The
success message prints the check-in timestamp. -/
def del (svc : SvcResult (Option Reservation)) (referer : Option String) : Resp :=
  match svc with
  | .ok (some r) =>
      let msg := "La réservation du bateau " ++ r.boatName ++ ", le " ++
        toString r.checkIn ++ " a été supprimée avec succès"
      match referer with
      | none => .jsonMsgErr 500 "Internal Server Error" typeError
      | some ref =>
          if jsIncludes ref "dashboard" then .jsonMsg 200 msg
          else .redirect 302 ("/dashboard?message=" ++ msg)
  | .ok none => .jsonMsgErr 500 "Internal Server Error" typeError
  | .error e =>
      if e.kind = some "ObjectId" then .jsonErrKind 400 "ObjectId"
      else .jsonMsgErr 500 "Internal Server Error" e

end reservationsController

/-! ## Composed (service + controller) delete operations -/

/-- `DELETE /catways/:id` end to end for a well-formed id: the service
deletes against the store, the controller maps the resolved value.
Returns the response and the store after the request. -/
def runCatwaysDelete (db : List Catway) (id : Nat) (referer : Option String) :
    Resp × List Catway :=
  let (deleted, db2) := deleteCatway db id
  (catwaysController.del (.ok deleted) referer, db2)

/-- `DELETE /:id/reservations/:idReservation` end to end for a
well-formed id. -/
def runReservationsDelete (db : List Reservation) (id : Nat)
    (referer : Option String) : Resp × List Reservation :=
  let (deleted, db2) := deleteReservation db id
  (reservationsController.del (.ok deleted) referer, db2)

/-- `DELETE /users/:id` end to end for a well-formed id. -/
def runUsersDelete (db : List StoredUser) (id : Nat) :
    Resp × List StoredUser :=
  let (deleted, db2) := deleteUser db id
  (usersController.del (.ok deleted), db2)

/-- Whether a service outcome is a mongoose validation failure. -/
def SvcResult.isValidationFailed {α : Type} : SvcResult α → Bool
  | .error e => e.name == some "ValidationError"
  | .ok _ => false

/-- Validity of the non-date reservation fields, as the schema's own
validators judge them: `catwayNumber` present, `clientName` present with
a trimmed length within 3..100, `boatName` present and non-blank. -/
def ReservationInput.otherFieldsOk (r : ReservationInput) : Bool :=
  r.catwayNumber.isSome &&
  (match r.clientName with
    | some s => decide (jsTrim s ≠ "") && (decide (3 ≤ (jsTrim s).length) && decide ((jsTrim s).length ≤ 100))
    | none => false) &&
  (match r.boatName with
    | some s => decide (jsTrim s ≠ "")
    | none => false)

/-- An error that is none of the recognised outcomes: not a validation
failure, not a duplicate key, not a malformed-identifier cast — an
unexpected failure. -/
def boomErr : JsError := ⟨some "Boom", none, none, []⟩

/-! # Theorems -/

/-- The gate, expressed through the token it effectively verifies:
no (or empty) effective token renders the 401 error view; otherwise the
abstract verifier decides between the 401 JSON rejection and invoking
the downstream handler with the decoded user. -/
theorem checkJWT_eq {Claim : Type} (verify : List Char → Option Claim)
    (cookie : Option (List Char)) :
    checkJWT verify cookie =
      match effectiveToken cookie with
      | none => .rejectRender 401 "error/error" [gateLoginMsg]
      | some t =>
          match verify t with
          | none => .rejectJson 401 "token_not_valid"
          | some u => .next u := by
  unfold checkJWT effectiveToken
  cases stripBearerStep cookie with
  | none => rfl
  | some s =>
      by_cases h : s ≠ []
      · simp only [if_pos h]
        cases verify s <;> rfl
      · simp only [if_neg h]

/-- C1: on a protected route, `checkJWT` answers 401 when the
`authToken` cookie is absent (error view) and when the present token
fails verification (JSON `'token_not_valid'`; an all-marker token that
strips to empty also gets the 401 error view); in both rejection cases
the downstream handler is not invoked.  When verification succeeds the
outcome is exactly one invocation of the downstream handler with the
decoded user claim attached, and the handler is reached only that
way. -/
theorem checkJWT_contract {Claim : Type} (verify : List Char → Option Claim)
    (cookie : Option (List Char)) :
    (cookie = none →
      checkJWT verify cookie = .rejectRender 401 "error/error" [gateLoginMsg]) ∧
    (∀ s, cookie = some s → effectiveToken cookie = none →
      checkJWT verify cookie = .rejectRender 401 "error/error" [gateLoginMsg]) ∧
    (∀ t, effectiveToken cookie = some t → verify t = none →
      checkJWT verify cookie = .rejectJson 401 "token_not_valid") ∧
    (∀ t u, effectiveToken cookie = some t → verify t = some u →
      checkJWT verify cookie = .next u) ∧
    (∀ u, checkJWT verify cookie = .next u →
      ∃ t, effectiveToken cookie = some t ∧ verify t = some u) := by
  refine ⟨?_, ?_, ?_, ?_, ?_⟩
  · intro h
    subst h
    rfl
  · intro s hs heff
    rw [checkJWT_eq, heff]
  · intro t heff hv
    simp [checkJWT_eq, heff, hv]
  · intro t u heff hv
    simp [checkJWT_eq, heff, hv]
  · intro u hnext
    rw [checkJWT_eq] at hnext
    cases heff : effectiveToken cookie with
    | none => rw [heff] at hnext; cases hnext
    | some t =>
        rw [heff] at hnext
        cases hv : verify t with
        | none => simp [hv] at hnext
        | some u2 =>
            simp [hv] at hnext
            exact ⟨t, rfl, hnext ▸ hv⟩

/-- Closed instance of `checkJWT_contract`: the cookie
`"Bearer tok"` is stripped to `"tok"`, which `demoVerify` decodes to
user `1`, so the gate proceeds with that claim. -/
theorem checkJWT_contract_witness :
    effectiveToken (some ("Bearer tok".data)) = some ("tok".data) ∧
    demoVerify ("tok".data) = some 1 ∧
    checkJWT demoVerify (some ("Bearer tok".data)) = .next 1 :=
  ⟨by decide, by decide,
    (checkJWT_contract demoVerify (some ("Bearer tok".data))).2.2.2.1
      ("tok".data) 1 (by decide) (by decide)⟩

/-- C4 fails as stated: the marker test is `startsWith('bearer')` but the
slice removes 7 characters, and stripping happens once per request, so a
token that itself begins with `"bearer"` is stripped when presented bare
but kept whole when presented behind `"Bearer "`.  For the token
`"bearer tok"` the bare cookie verifies (as `"tok"`) while the prefixed
cookie is rejected. -/
theorem bearer_strip_not_idempotent :
    checkJWT demoVerify (some ("Bearer bearer tok".data)) ≠
      checkJWT demoVerify (some ("bearer tok".data)) := by
  decide

/-- C4 (amended): for every token that does not itself begin with the
case-insensitive marker `"bearer"`, prefixing it with any letter-casing
of `"Bearer "` verifies identically to the bare token: the marker is
stripped before verification. -/
theorem bearer_strip_equiv {Claim : Type} (verify : List Char → Option Claim)
    (p t : List Char) (hp : jsToLower p = "bearer ".data)
    (ht : jsStartsWith (jsToLower t) ("bearer".data) = false) :
    checkJWT verify (some (p ++ t)) = checkJWT verify (some t) := by
  have hplen : p.length = 7 := by
    have := congrArg List.length hp
    simpa [jsToLower] using this
  have hpne : p ++ t ≠ [] := by
    intro h
    rcases List.append_eq_nil.mp h with ⟨h1, _⟩
    rw [h1] at hplen
    simp at hplen
  have hlow : jsToLower (p ++ t) = "bearer ".data ++ jsToLower t := by
    simp [jsToLower] at hp ⊢
    simp [hp]
  have hstart : jsStartsWith (jsToLower (p ++ t)) ("bearer".data) = true := by
    rw [hlow]
    rfl
  have hdrop : (p ++ t).drop 7 = t := by
    rw [← hplen]
    exact List.drop_left _ _
  have hstrip1 : stripBearerStep (some (p ++ t)) = some t := by
    simp [stripBearerStep, hpne, hstart, jsSlice, hdrop]
  have hstrip2 : stripBearerStep (some t) = some t := by
    simp [stripBearerStep, ht]
  rw [checkJWT_eq, checkJWT_eq]
  unfold effectiveToken
  rw [hstrip1, hstrip2]

/-- Closed instance of `bearer_strip_equiv`: the mixed-case marker
`"BeArEr "` before `"tok"` verifies exactly as `"tok"` alone. -/
theorem bearer_strip_equiv_witness :
    jsToLower ("BeArEr ".data) = "bearer ".data ∧
    jsStartsWith (jsToLower ("tok".data)) ("bearer".data) = false ∧
    checkJWT demoVerify (some ("BeArEr ".data ++ "tok".data)) =
      checkJWT demoVerify (some ("tok".data)) :=
  ⟨by decide, by decide,
    bearer_strip_equiv demoVerify ("BeArEr ".data) ("tok".data)
      (by decide) (by decide)⟩

/-- C2 fails as stated: against a store holding only `aliceUser`, the
unknown email `"bob@mail.com"` and the known email `"alice@mail.com"`
with a mismatching password produce different responses — the rendered
messages differ (`'Identifiants erronés...'` vs
`'mot de passe erroné...'`), so the two cases are distinguishable. -/
theorem authenticate_failures_distinguishable :
    authenticate demoStore demoMismatch "bob@mail.com" "pw" ≠
      authenticate demoStore demoMismatch "alice@mail.com" "pw" := by
  decide

/-- C2 (amended): both failure cases render the same home view with the
same (default 200) response shape, but with two different fixed
messages — `'Identifiants erronés, veuillez réessayer.'` for an unknown
email and `'mot de passe erroné, veuillez réessayer.'` for a password
mismatch — so the caller can tell the cases apart by the message
alone. -/
theorem authenticate_failure_branches
    (store : String → Option StoredUser)
    (compare : String → String → CompareResult)
    (email password : String) (u : StoredUser) :
    (store email = none →
      authenticate store compare email password =
        .renderHome "home/home" unknownEmailMsg) ∧
    (store email = some u → compare password u.password = .mismatch →
      authenticate store compare email password =
        .renderHome "home/home" wrongPasswordMsg) ∧
    unknownEmailMsg ≠ wrongPasswordMsg := by
  refine ⟨?_, ?_, by decide⟩
  · intro h
    simp [authenticate, h]
  · intro h hcmp
    simp [authenticate, h, hcmp]

/-- Closed instance of `authenticate_failure_branches` at the demo
store: the two failure responses, produced at concrete inputs. -/
theorem authenticate_failure_branches_witness :
    demoStore "bob@mail.com" = none ∧
    demoStore "alice@mail.com" = some aliceUser ∧
    demoMismatch "pw" aliceUser.password = .mismatch ∧
    authenticate demoStore demoMismatch "bob@mail.com" "pw" =
      .renderHome "home/home" unknownEmailMsg ∧
    authenticate demoStore demoMismatch "alice@mail.com" "pw" =
      .renderHome "home/home" wrongPasswordMsg :=
  ⟨by decide, by decide, by decide,
    (authenticate_failure_branches demoStore demoMismatch
      "bob@mail.com" "pw" aliceUser).1 (by decide),
    (authenticate_failure_branches demoStore demoMismatch
      "alice@mail.com" "pw" aliceUser).2.1 (by decide) (by decide)⟩

/-- C3: on a matching `(email, password)` pair, `authenticate` issues a
token whose claim is the stored record minus the password field, with a
fixed time-to-live of `24 * 60 * 60 = 86400` seconds, delivered in an
HTTP-only `authToken` cookie whose `maxAge` (Express counts it in
milliseconds) spans exactly the token's time-to-live. -/
theorem authenticate_success_token
    (store : String → Option StoredUser)
    (compare : String → String → CompareResult)
    (email password : String) (u : StoredUser)
    (hfind : store email = some u)
    (hcmp : compare password u.password = .matched) :
    authenticate store compare email password =
      .loginSuccess
        ⟨"authToken", ⟨stripPassword u, 24 * 60 * 60⟩, true, (24 * 60 * 60) * 1000⟩
        "dashboard/dashboard" ∧
    (24 * 60 * 60 : Nat) = 86400 := by
  refine ⟨?_, by norm_num⟩
  simp [authenticate, hfind, hcmp]

/-- Closed instance of `authenticate_success_token`: Alice logs in with
the right password and receives the cookie-wrapped 24-hour token
carrying her password-less record. -/
theorem authenticate_success_token_witness :
    demoStore "alice@mail.com" = some aliceUser ∧
    demoCompare "pw" aliceUser.password = .matched ∧
    authenticate demoStore demoCompare "alice@mail.com" "pw" =
      .loginSuccess
        ⟨"authToken", ⟨stripPassword aliceUser, 24 * 60 * 60⟩, true, (24 * 60 * 60) * 1000⟩
        "dashboard/dashboard" :=
  ⟨by decide, by decide,
    (authenticate_success_token demoStore demoCompare "alice@mail.com" "pw"
      aliceUser (by decide) (by decide)).1⟩

/-- C6: when `bcrypt.compare` reports an internal error for a stored
user, the handler executes `throw new Error(err)` inside the
asynchronous compare callback; the enclosing `try`/`catch` has already
completed, so nothing catches it and the request ends with no response
at all — neither the unexpected-failure (5xx) response the spec
requires, nor the authentication-failure view. -/
theorem authenticate_hash_error_no_response :
    authenticate demoStore demoCompareFail "alice@mail.com" "pw" =
      .noResponse "bcrypt internal error" := by
  decide

/-- C5 fails as stated: `boomErr` is an unexpected failure (not a
validation error, duplicate key or malformed-identifier cast), yet
`usersController.update` answers it with status 501, not 500. -/
theorem unexpected_error_status_not_uniform :
    usersController.update (.error boomErr) = .jsonErrObj 501 boomErr ∧
    (usersController.update (.error boomErr)).status ≠ 500 := by
  decide

/-- C5 (amended): an unexpected failure — any error that is not a
validation failure, duplicate key or malformed-identifier cast — is
mapped to HTTP 500 with the generic internal-error message by every
catways-controller and reservations-controller operation and by the
users controller's `getById` and `add`; but the users controller's
`update`, `edit`, `delete` and `getUsersList` map the same outcome to
HTTP 501 with the raw error as body, so the mapping is not uniform
across controllers. -/
theorem unexpected_error_status_by_controller (e : JsError)
    (q referer : Option String) (c : Catway)
    (rs : SvcResult (List Reservation))
    (hname : e.name ≠ some "ValidationError")
    (hcode : e.code ≠ some 11000)
    (hkind : e.kind ≠ some "ObjectId") :
    (usersController.getById (.error e)).status = 500 ∧
    (usersController.add (.error e)).status = 500 ∧
    (usersController.update (.error e)).status = 501 ∧
    (usersController.edit (.error e)).status = 501 ∧
    (usersController.del (.error e)).status = 501 ∧
    (usersController.getUsersList (.error e)).status = 501 ∧
    (catwaysController.getAll (.error e) q).status = 500 ∧
    (catwaysController.getById (.error e)).status = 500 ∧
    (catwaysController.add (.error e)).status = 500 ∧
    (catwaysController.update (.error e)).status = 500 ∧
    (catwaysController.edit (.error e)).status = 500 ∧
    (catwaysController.del (.error e) referer).status = 500 ∧
    (reservationsController.getAllOfCatway (.error e) rs).status = 500 ∧
    (reservationsController.getAll (.error e)).status = 500 ∧
    (reservationsController.getbyId (.error e)).status = 500 ∧
    (reservationsController.add (.error e) (.error e)).status = 500 ∧
    (reservationsController.add (.ok (some c)) (.error e)).status = 500 ∧
    (reservationsController.renderAddForm (.error e)).status = 500 ∧
    (reservationsController.del (.error e) referer).status = 500 := by
  refine ⟨?_, ?_, ?_, ?_, ?_, ?_, ?_, ?_, ?_, ?_, ?_, ?_, ?_, ?_, ?_, ?_, ?_, ?_, ?_⟩ <;>
    simp [usersController.getById, usersController.add, usersController.update,
      usersController.edit, usersController.del, usersController.getUsersList,
      catwaysController.getAll, catwaysController.getById, catwaysController.add,
      catwaysController.update, catwaysController.edit, catwaysController.del,
      reservationsController.getAllOfCatway, reservationsController.getAll,
      reservationsController.getbyId, reservationsController.add,
      reservationsController.renderAddForm, reservationsController.del,
      Resp.status, hname, hcode, hkind]

/-- Closed instance of `unexpected_error_status_by_controller` at the
concrete unexpected error `boomErr`. -/
theorem unexpected_error_status_by_controller_witness :
    boomErr.name ≠ some "ValidationError" ∧
    boomErr.code ≠ some 11000 ∧
    boomErr.kind ≠ some "ObjectId" ∧
    ((usersController.getById (.error boomErr)).status = 500 ∧
      (usersController.update (.error boomErr)).status = 501 ∧
      (catwaysController.getAll (.error boomErr) none).status = 500 ∧
      (reservationsController.del (.error boomErr) none).status = 500) :=
  ⟨by decide, by decide, by decide, by
    have h := unexpected_error_status_by_controller boomErr none none
      ⟨0, 0, "long", "état", "Orion"⟩ (.ok [])
      (by decide) (by decide) (by decide)
    exact ⟨h.1, h.2.2.1, h.2.2.2.2.2.2.1, h.2.2.2.2.2.2.2.2.2.2.2.2.2.2.2.2.2.2⟩⟩

/-- C7: creating a reservation fails with a validation error whenever
check-out is not strictly after check-in or check-in lies before the
creation-time clock `now`, whatever the other fields hold; and succeeds
(inserting the document) whenever check-out is strictly after check-in,
check-in is not in the past, and the other required fields are valid. -/
theorem reservation_date_validation (now : Int) (db : List Reservation)
    (input : ReservationInput) (ci co : Int)
    (hci : input.checkIn = some ci) (hco : input.checkOut = some co) :
    ((co ≤ ci ∨ ci < now) →
      (creatReservation now db input).1.isValidationFailed = true) ∧
    (ci < co → now ≤ ci → input.otherFieldsOk = true →
      ∃ r : Reservation, creatReservation now db input = (.ok r, db ++ [r])) := by
  obtain ⟨n?, cn?, bn?, ci?, co?⟩ := input
  simp only at hci hco
  subst hci
  subst hco
  constructor
  · intro hdate
    have hne : reservationValidationErrors now ⟨n?, cn?, bn?, some ci, some co⟩ ≠ [] := by
      rcases hdate with h | h
      · apply List.ne_nil_of_mem
          (a := "La date de check-out doit être postérieure à la date de check-in.")
        have h5 : ¬ ci < co := not_lt.mpr h
        simp [reservationValidationErrors, h5]
      · apply List.ne_nil_of_mem
          (a := "La date de check-in ne peut pas être dans le passé.")
        have h4 : ¬ now ≤ ci := not_le.mpr h
        simp [reservationValidationErrors, h4]
    cases n? <;> cases cn? <;> cases bn? <;>
      simp [creatReservation, hne, SvcResult.isValidationFailed, validationError]
  · intro h1 h2 h3
    cases n? with
    | none => simp [ReservationInput.otherFieldsOk] at h3
    | some n =>
    cases cn? with
    | none => simp [ReservationInput.otherFieldsOk] at h3
    | some cn =>
    cases bn? with
    | none => simp [ReservationInput.otherFieldsOk] at h3
    | some bn =>
    simp only [ReservationInput.otherFieldsOk, Option.isSome_some, Bool.true_and,
      Bool.and_eq_true, decide_eq_true_eq] at h3
    obtain ⟨⟨hcn1, hcn2, hcn3⟩, hbn⟩ := h3
    have herrs : reservationValidationErrors now ⟨some n, some cn, some bn, some ci, some co⟩ = [] := by
      simp [reservationValidationErrors, hcn1, hbn, h1, h2,
        not_lt.mpr hcn2, not_lt.mpr hcn3]
    refine ⟨⟨db.length, n, jsTrim cn, jsTrim bn, ci, co⟩, ?_⟩
    simp [creatReservation, herrs]

/-- Closed instance of `reservation_date_validation`: with `now = 100`,
a reservation with `checkIn = 100`, `checkOut = 200` and valid client
and boat names is created and appended to the store. -/
theorem reservation_date_validation_witness :
    ((⟨some 3, some "John Doe", some "Orion", some 100, some 200⟩ :
        ReservationInput).checkIn = some 100) ∧
    ((⟨some 3, some "John Doe", some "Orion", some 100, some 200⟩ :
        ReservationInput).checkOut = some 200) ∧
    (100 : Int) < 200 ∧ (100 : Int) ≤ 100 ∧
    (⟨some 3, some "John Doe", some "Orion", some 100, some 200⟩ :
        ReservationInput).otherFieldsOk = true ∧
    ∃ r : Reservation,
      creatReservation 100 []
        ⟨some 3, some "John Doe", some "Orion", some 100, some 200⟩ = (.ok r, [] ++ [r]) :=
  ⟨rfl, rfl, by decide, by decide, by decide,
    (reservation_date_validation 100 []
      ⟨some 3, some "John Doe", some "Orion", some 100, some 200⟩ 100 200
      rfl rfl).2 (by decide) (by decide) (by decide)⟩

/-- C8: with a store free of `catwayNumber = n`, a first valid creation
with number `n` succeeds and appends the catway; a second valid creation
with the same number fails with the Mongo duplicate-key error (code
11000), leaving the store unchanged; the add controller maps that error
to HTTP 400 with the duplicate-value message; and every add operation
preserves the store invariant that catway numbers are duplicate-free. -/
theorem catway_duplicate_key (db : List Catway) (input input2 : CatwayInput)
    (n : Int)
    (h1 : catwayValidationErrors input = [])
    (h2 : catwayValidationErrors input2 = [])
    (hn1 : input.catwayNumber = some n)
    (hn2 : input2.catwayNumber = some n)
    (hfree : ∀ c ∈ db, c.catwayNumber ≠ n) :
    (∃ c, addCatway db input = (.ok c, db ++ [c]) ∧ c.catwayNumber = n) ∧
    (addCatway (addCatway db input).2 input2).1 = .error dupKeyError ∧
    (addCatway (addCatway db input).2 input2).2 = (addCatway db input).2 ∧
    catwaysController.add (addCatway (addCatway db input).2 input2).1 =
      .renderErrors 400 ["Ce numéro de catway existe déjà"] ∧
    (∀ (db3 : List Catway) (i3 : CatwayInput),
      (db3.map fun c => c.catwayNumber).Nodup →
      (((addCatway db3 i3).2).map fun c => c.catwayNumber).Nodup) := by
  obtain ⟨n1?, ty1?, st1?, bn1?⟩ := input
  obtain ⟨n2?, ty2?, st2?, bn2?⟩ := input2
  simp only at hn1 hn2
  subst hn1
  subst hn2
  cases ty1? with
  | none => simp [catwayValidationErrors] at h1
  | some ty1 =>
  cases st1? with
  | none => simp [catwayValidationErrors] at h1
  | some st1 =>
  cases bn1? with
  | none => simp [catwayValidationErrors] at h1
  | some bn1 =>
  cases ty2? with
  | none => simp [catwayValidationErrors] at h2
  | some ty2 =>
  cases st2? with
  | none => simp [catwayValidationErrors] at h2
  | some st2 =>
  cases bn2? with
  | none => simp [catwayValidationErrors] at h2
  | some bn2 =>
  have hany1 : (db.any fun c => decide (c.catwayNumber = n)) = false := by
    rw [List.any_eq_false]
    intro c hc
    simpa using hfree c hc
  have hadd1 : addCatway db ⟨some n, some ty1, some st1, some bn1⟩ =
      (.ok ⟨db.length, n, jsTrim ty1, jsTrim st1, jsTrim bn1⟩,
        db ++ [⟨db.length, n, jsTrim ty1, jsTrim st1, jsTrim bn1⟩]) := by
    simp [addCatway, h1, hany1]
  have hany2 : ((db ++ [(⟨db.length, n, jsTrim ty1, jsTrim st1, jsTrim bn1⟩ : Catway)]).any
      fun c => decide (c.catwayNumber = n)) = true := by
    simp
  have hadd2 : addCatway
      (db ++ [(⟨db.length, n, jsTrim ty1, jsTrim st1, jsTrim bn1⟩ : Catway)])
      ⟨some n, some ty2, some st2, some bn2⟩ =
      (.error dupKeyError,
        db ++ [(⟨db.length, n, jsTrim ty1, jsTrim st1, jsTrim bn1⟩ : Catway)]) := by
    simp [addCatway, h2, hany2]
  refine ⟨⟨_, hadd1, rfl⟩, ?_, ?_, ?_, ?_⟩
  · rw [hadd1]
    rw [hadd2]
  · rw [hadd1]
    rw [hadd2]
  · have hmap : catwaysController.add (.error dupKeyError) =
        .renderErrors 400 ["Ce numéro de catway existe déjà"] := by decide
    rw [hadd1]
    exact hadd2 ▸ hmap
  · intro db3 i3 hnodup
    obtain ⟨n3?, ty3?, st3?, bn3?⟩ := i3
    cases n3? with
    | none => simpa [addCatway] using hnodup
    | some n3 =>
    cases ty3? with
    | none => simpa [addCatway] using hnodup
    | some ty3 =>
    cases st3? with
    | none => simpa [addCatway] using hnodup
    | some st3 =>
    cases bn3? with
    | none => simpa [addCatway] using hnodup
    | some bn3 =>
    by_cases he : catwayValidationErrors ⟨some n3, some ty3, some st3, some bn3⟩ = []
    · by_cases ha : (db3.any fun c => decide (c.catwayNumber = n3)) = true
      · simpa [addCatway, he, ha] using hnodup
      · have ha' : (db3.any fun c => decide (c.catwayNumber = n3)) = false :=
          Bool.eq_false_iff.mpr ha
        simp only [addCatway, he, ha', ne_eq, not_true_eq_false, if_false,
          Bool.false_eq_true, if_true]
        rw [List.map_append, List.nodup_append]
        refine ⟨hnodup, List.nodup_singleton _, ?_⟩
        intro a hamem ha2
        simp only [List.map_cons, List.map_nil, List.mem_singleton] at ha2
        subst ha2
        rw [List.mem_map] at hamem
        obtain ⟨c0, hc0, hceq⟩ := hamem
        rw [List.any_eq_false] at ha'
        exact absurd (by simpa using hceq) (by simpa using ha' c0 hc0)
    · simpa [addCatway, he] using hnodup

/-- Closed instance of `catway_duplicate_key`: against the empty store,
a valid catway numbered 5 is created, and a second valid creation with
number 5 is rejected with the duplicate-key error. -/
theorem catway_duplicate_key_witness :
    catwayValidationErrors ⟨some 5, some "long", some "bon état", some "Orion"⟩ = [] ∧
    catwayValidationErrors ⟨some 5, some "short", some "état moyen", some "Pegasus"⟩ = [] ∧
    (∃ c, addCatway [] ⟨some 5, some "long", some "bon état", some "Orion"⟩ =
        (.ok c, [] ++ [c]) ∧ c.catwayNumber = 5) ∧
    (addCatway (addCatway [] ⟨some 5, some "long", some "bon état", some "Orion"⟩).2
        ⟨some 5, some "short", some "état moyen", some "Pegasus"⟩).1 = .error dupKeyError :=
  ⟨by decide, by decide,
    (catway_duplicate_key []
      ⟨some 5, some "long", some "bon état", some "Orion"⟩
      ⟨some 5, some "short", some "état moyen", some "Pegasus"⟩ 5
      (by decide) (by decide) rfl rfl (by decide)).1,
    (catway_duplicate_key []
      ⟨some 5, some "long", some "bon état", some "Orion"⟩
      ⟨some 5, some "short", some "état moyen", some "Pegasus"⟩ 5
      (by decide) (by decide) rfl rfl (by decide)).2.1⟩

/-- C9: a delete request whose well-formed identifier matches nothing
makes `findByIdAndDelete` resolve `null`; the controllers then read a
field of `null`, the raised `TypeError` lands in the generic branch, and
the response is 500 (catways, reservations) or 501 (users) — never the
404 not-found outcome. -/
theorem delete_missing_entity_no_404
    (cdb : List Catway) (rdb : List Reservation) (udb : List StoredUser)
    (cid rid uid : Nat) (referer : Option String)
    (hc : ∀ c ∈ cdb, c.id ≠ cid) (hr : ∀ r ∈ rdb, r.id ≠ rid)
    (hu : ∀ u ∈ udb, u.id ≠ uid) :
    runCatwaysDelete cdb cid referer =
      (.jsonMsgErr 500 "Internal Server Error" typeError, cdb) ∧
    runReservationsDelete rdb rid referer =
      (.jsonMsgErr 500 "Internal Server Error" typeError, rdb) ∧
    runUsersDelete udb uid = (.jsonErrObj 501 typeError, udb) ∧
    (runCatwaysDelete cdb cid referer).1.status ≠ 404 ∧
    (runReservationsDelete rdb rid referer).1.status ≠ 404 ∧
    (runUsersDelete udb uid).1.status ≠ 404 := by
  have hc0 : cdb.find? (fun c => c.id == cid) = none := by
    rw [List.find?_eq_none]
    intro c hm
    simpa using hc c hm
  have hr0 : rdb.find? (fun r => r.id == rid) = none := by
    rw [List.find?_eq_none]
    intro r hm
    simpa using hr r hm
  have hu0 : udb.find? (fun u => u.id == uid) = none := by
    rw [List.find?_eq_none]
    intro u hm
    simpa using hu u hm
  have e1 : runCatwaysDelete cdb cid referer =
      (.jsonMsgErr 500 "Internal Server Error" typeError, cdb) := by
    simp [runCatwaysDelete, deleteCatway, hc0, catwaysController.del]
  have e2 : runReservationsDelete rdb rid referer =
      (.jsonMsgErr 500 "Internal Server Error" typeError, rdb) := by
    simp [runReservationsDelete, deleteReservation, hr0, reservationsController.del]
  have e3 : runUsersDelete udb uid = (.jsonErrObj 501 typeError, udb) := by
    simp [runUsersDelete, deleteUser, hu0, usersController.del]
  refine ⟨e1, e2, e3, ?_, ?_, ?_⟩
  · rw [e1]
    simp [Resp.status]
  · rw [e2]
    simp [Resp.status]
  · rw [e3]
    simp [Resp.status]

/-- Closed instance of `delete_missing_entity_no_404`: singleton stores,
looked up with an id that matches nothing. -/
theorem delete_missing_entity_no_404_witness :
    (∀ c ∈ [(⟨0, 1, "long", "bon état", "Orion"⟩ : Catway)], c.id ≠ 9) ∧
    (∀ r ∈ [(⟨0, 1, "John Doe", "Orion", 100, 200⟩ : Reservation)], r.id ≠ 9) ∧
    (∀ u ∈ [aliceUser], u.id ≠ 9) ∧
    (runCatwaysDelete [⟨0, 1, "long", "bon état", "Orion"⟩] 9 none).1.status ≠ 404 ∧
    (runReservationsDelete [⟨0, 1, "John Doe", "Orion", 100, 200⟩] 9 none).1.status ≠ 404 ∧
    (runUsersDelete [aliceUser] 9).1.status ≠ 404 :=
  ⟨by decide, by decide, by decide, by
    have h := delete_missing_entity_no_404
      [⟨0, 1, "long", "bon état", "Orion"⟩] [⟨0, 1, "John Doe", "Orion", 100, 200⟩]
      [aliceUser] 9 9 9 none (by decide) (by decide) (by decide)
    exact h.2.2.2.1, by
    have h := delete_missing_entity_no_404
      [⟨0, 1, "long", "bon état", "Orion"⟩] [⟨0, 1, "John Doe", "Orion", 100, 200⟩]
      [aliceUser] 9 9 9 none (by decide) (by decide) (by decide)
    exact h.2.2.2.2.1, by
    have h := delete_missing_entity_no_404
      [⟨0, 1, "long", "bon état", "Orion"⟩] [⟨0, 1, "John Doe", "Orion", 100, 200⟩]
      [aliceUser] 9 9 9 none (by decide) (by decide) (by decide)
    exact h.2.2.2.2.2⟩

/-- C10: when the delete service does find and remove the entity but the
request carries no referer header, `req.headers.referer.includes`
raises, the handler answers the generic 500 — yet the entity is already
gone from the store, which therefore differs from its pre-request state
despite the error response. -/
theorem delete_error_yet_store_mutated
    (cdb : List Catway) (rdb : List Reservation) (cid rid : Nat)
    (c : Catway) (r : Reservation)
    (hcf : cdb.find? (fun x => x.id == cid) = some c)
    (hrf : rdb.find? (fun x => x.id == rid) = some r) :
    ((runCatwaysDelete cdb cid none).1 =
        .jsonMsgErr 500 "Internal Server Error" typeError ∧
      (runCatwaysDelete cdb cid none).2 = cdb.eraseP (fun x => x.id == cid) ∧
      (runCatwaysDelete cdb cid none).2.length + 1 = cdb.length ∧
      (runCatwaysDelete cdb cid none).2 ≠ cdb) ∧
    ((runReservationsDelete rdb rid none).1 =
        .jsonMsgErr 500 "Internal Server Error" typeError ∧
      (runReservationsDelete rdb rid none).2 = rdb.eraseP (fun x => x.id == rid) ∧
      (runReservationsDelete rdb rid none).2.length + 1 = rdb.length ∧
      (runReservationsDelete rdb rid none).2 ≠ rdb) := by
  have hpc := List.find?_some hcf
  have hpr := List.find?_some hrf
  have hclen : (cdb.eraseP (fun x => x.id == cid)).length + 1 = cdb.length :=
    List.length_eraseP_add_one (List.mem_of_find?_eq_some hcf) hpc
  have hrlen : (rdb.eraseP (fun x => x.id == rid)).length + 1 = rdb.length :=
    List.length_eraseP_add_one (List.mem_of_find?_eq_some hrf) hpr
  have e1 : runCatwaysDelete cdb cid none =
      (.jsonMsgErr 500 "Internal Server Error" typeError,
        cdb.eraseP (fun x => x.id == cid)) := by
    simp [runCatwaysDelete, deleteCatway, hcf, catwaysController.del]
  have e2 : runReservationsDelete rdb rid none =
      (.jsonMsgErr 500 "Internal Server Error" typeError,
        rdb.eraseP (fun x => x.id == rid)) := by
    simp [runReservationsDelete, deleteReservation, hrf, reservationsController.del]
  refine ⟨⟨by rw [e1], by rw [e1], ?_, ?_⟩, ⟨by rw [e2], by rw [e2], ?_, ?_⟩⟩
  · rw [e1]
    exact hclen
  · rw [e1]
    intro hsame
    have hs2 : List.eraseP (fun x => x.id == cid) cdb = cdb := hsame
    rw [hs2] at hclen
    omega
  · rw [e2]
    exact hrlen
  · rw [e2]
    intro hsame
    have hs2 : List.eraseP (fun x => x.id == rid) rdb = rdb := hsame
    rw [hs2] at hrlen
    omega

/-- Closed instance of `delete_error_yet_store_mutated`: deleting the
only reservation and the only catway of singleton stores with no referer
header yields the 500 response while the stores end up empty. -/
theorem delete_error_yet_store_mutated_witness :
    ([(⟨0, 1, "long", "bon état", "Orion"⟩ : Catway)].find? (fun x => x.id == 0) =
        some ⟨0, 1, "long", "bon état", "Orion"⟩) ∧
    ([(⟨0, 1, "John Doe", "Orion", 100, 200⟩ : Reservation)].find? (fun x => x.id == 0) =
        some ⟨0, 1, "John Doe", "Orion", 100, 200⟩) ∧
    (runCatwaysDelete [⟨0, 1, "long", "bon état", "Orion"⟩] 0 none).1 =
      .jsonMsgErr 500 "Internal Server Error" typeError ∧
    (runCatwaysDelete [⟨0, 1, "long", "bon état", "Orion"⟩] 0 none).2 ≠
      [⟨0, 1, "long", "bon état", "Orion"⟩] :=
  ⟨by decide, by decide, by
    have h := delete_error_yet_store_mutated
      [⟨0, 1, "long", "bon état", "Orion"⟩] [⟨0, 1, "John Doe", "Orion", 100, 200⟩]
      0 0 ⟨0, 1, "long", "bon état", "Orion"⟩ ⟨0, 1, "John Doe", "Orion", 100, 200⟩
      (by decide) (by decide)
    exact h.1.1, by
    have h := delete_error_yet_store_mutated
      [⟨0, 1, "long", "bon état", "Orion"⟩] [⟨0, 1, "John Doe", "Orion", 100, 200⟩]
      0 0 ⟨0, 1, "long", "bon état", "Orion"⟩ ⟨0, 1, "John Doe", "Orion", 100, 200⟩
      (by decide) (by decide)
    exact h.1.2.2.2⟩

end Marina
